import Mathlib

/-!
Shallow embedding of `src/src/Lights/babylon.spotLight.ts` (class `SpotLight`
of Babylon.js, fork chestnutwww/Babylon.js).

Scalars are modelled as rationals.  The numeric library routines used by the
source (`Math.tan`, `Math.cos` and the square root inside
`Vec3.Normalize`) are not part of the source file; they are threaded
through every definition as an explicit record `JsMath` of rational
functions, so that every definition stays computable and every theorem is
parametric in the actual numeric routines.  Matrices follow Babylon's
row-major, row-vector convention: a point `p` is transformed as the row
vector `(p.x, p.y, p.z, 1)` multiplied on the right by the matrix.
-/

/-- The ambient numeric routines (JavaScript `Math.tan`, `Math.cos`, and the
square root used by vector normalization), passed explicitly to keep the
embedding computable. -/
structure JsMath where
  sqrt : ℚ → ℚ
  tan : ℚ → ℚ
  cos : ℚ → ℚ

/-- Babylon `Vector3`, restricted to the operations the spot-light code
uses. -/
structure Vec3 where
  x : ℚ
  y : ℚ
  z : ℚ
  deriving DecidableEq

/-- Componentwise sum, as Babylon `Vec3.add`. -/
def Vec3.add (a b : Vec3) : Vec3 :=
  ⟨a.x + b.x, a.y + b.y, a.z + b.z⟩

/-- Componentwise difference, as Babylon `Vec3.subtract`. -/
def Vec3.sub (a b : Vec3) : Vec3 :=
  ⟨a.x - b.x, a.y - b.y, a.z - b.z⟩

/-- Scalar multiple of a vector. -/
def Vec3.scale (c : ℚ) (v : Vec3) : Vec3 :=
  ⟨c * v.x, c * v.y, c * v.z⟩

/-- Euclidean dot product. -/
def Vec3.dot (a b : Vec3) : ℚ :=
  a.x * b.x + a.y * b.y + a.z * b.z

/-- Cross product (left-handed convention as in Babylon). -/
def Vec3.cross (a b : Vec3) : Vec3 :=
  ⟨a.y * b.z - a.z * b.y, a.z * b.x - a.x * b.z, a.x * b.y - a.y * b.x⟩

/-- Squared Euclidean length. -/
def Vec3.lengthSq (v : Vec3) : ℚ :=
  Vec3.dot v v

/-- Babylon `Vector3.Up()`, the world up vector `(0, 1, 0)`. -/
def Vec3.up : Vec3 := ⟨0, 1, 0⟩

/-- Modelled from the spec: Babylon `Vec3.Normalize` is not under `src/`;
the spec describes directions as "normalized on use".  The vector is divided
by its length, the length being the square root (taken from the `JsMath`
record) of the squared length. -/
def Vec3.Normalize (M : JsMath) (v : Vec3) : Vec3 :=
  let l := M.sqrt v.lengthSq
  ⟨v.x / l, v.y / l, v.z / l⟩

/-- A homogeneous 4-component row vector (used to state transform facts). -/
structure Vec4 where
  x : ℚ
  y : ℚ
  z : ℚ
  w : ℚ
  deriving DecidableEq

/-- Babylon `Matrix`: a 4x4 matrix stored row-major; field `mIJ` is the
entry in row `I`, column `J`. -/
structure Matrix4 where
  m00 : ℚ
  m01 : ℚ
  m02 : ℚ
  m03 : ℚ
  m10 : ℚ
  m11 : ℚ
  m12 : ℚ
  m13 : ℚ
  m20 : ℚ
  m21 : ℚ
  m22 : ℚ
  m23 : ℚ
  m30 : ℚ
  m31 : ℚ
  m32 : ℚ
  m33 : ℚ
  deriving DecidableEq

/-- Babylon `Matrix.FromValuesToRef`: builds a matrix from sixteen values
given row by row (Babylon's argument names `initialM11 .. initialM44`). -/
def Matrix4.fromValues (a11 a12 a13 a14 a21 a22 a23 a24
    a31 a32 a33 a34 a41 a42 a43 a44 : ℚ) : Matrix4 :=
  ⟨a11, a12, a13, a14, a21, a22, a23, a24, a31, a32, a33, a34, a41, a42, a43, a44⟩

/-- Babylon `Matrix.Zero()`. -/
def Matrix4.zero : Matrix4 :=
  Matrix4.fromValues 0 0 0 0 0 0 0 0 0 0 0 0 0 0 0 0

/-- Babylon `Matrix.multiplyToRef`: the usual row-major matrix product,
`(A.mul B)` transforms row vectors first by `A`, then by `B`. -/
def Matrix4.mul (A B : Matrix4) : Matrix4 :=
  ⟨A.m00 * B.m00 + A.m01 * B.m10 + A.m02 * B.m20 + A.m03 * B.m30,
   A.m00 * B.m01 + A.m01 * B.m11 + A.m02 * B.m21 + A.m03 * B.m31,
   A.m00 * B.m02 + A.m01 * B.m12 + A.m02 * B.m22 + A.m03 * B.m32,
   A.m00 * B.m03 + A.m01 * B.m13 + A.m02 * B.m23 + A.m03 * B.m33,
   A.m10 * B.m00 + A.m11 * B.m10 + A.m12 * B.m20 + A.m13 * B.m30,
   A.m10 * B.m01 + A.m11 * B.m11 + A.m12 * B.m21 + A.m13 * B.m31,
   A.m10 * B.m02 + A.m11 * B.m12 + A.m12 * B.m22 + A.m13 * B.m32,
   A.m10 * B.m03 + A.m11 * B.m13 + A.m12 * B.m23 + A.m13 * B.m33,
   A.m20 * B.m00 + A.m21 * B.m10 + A.m22 * B.m20 + A.m23 * B.m30,
   A.m20 * B.m01 + A.m21 * B.m11 + A.m22 * B.m21 + A.m23 * B.m31,
   A.m20 * B.m02 + A.m21 * B.m12 + A.m22 * B.m22 + A.m23 * B.m32,
   A.m20 * B.m03 + A.m21 * B.m13 + A.m22 * B.m23 + A.m23 * B.m33,
   A.m30 * B.m00 + A.m31 * B.m10 + A.m32 * B.m20 + A.m33 * B.m30,
   A.m30 * B.m01 + A.m31 * B.m11 + A.m32 * B.m21 + A.m33 * B.m31,
   A.m30 * B.m02 + A.m31 * B.m12 + A.m32 * B.m22 + A.m33 * B.m32,
   A.m30 * B.m03 + A.m31 * B.m13 + A.m32 * B.m23 + A.m33 * B.m33⟩

/-- A homogeneous row vector multiplied on the right by a matrix. -/
def Matrix4.applyH (m : Matrix4) (v : Vec4) : Vec4 :=
  ⟨v.x * m.m00 + v.y * m.m10 + v.z * m.m20 + v.w * m.m30,
   v.x * m.m01 + v.y * m.m11 + v.z * m.m21 + v.w * m.m31,
   v.x * m.m02 + v.y * m.m12 + v.z * m.m22 + v.w * m.m32,
   v.x * m.m03 + v.y * m.m13 + v.z * m.m23 + v.w * m.m33⟩

/-- Modelled from the spec: applying a transform to a point "with
homogeneous divide" (Babylon `Vector3.TransformCoordinates`, not under
`src/`): the row vector `(p.x, p.y, p.z, 1)` is multiplied by the matrix
and the result is divided by its `w` component. -/
def Matrix4.applyPoint (m : Matrix4) (p : Vec3) : Vec3 :=
  let r := m.applyH ⟨p.x, p.y, p.z, 1⟩
  ⟨r.x / r.w, r.y / r.w, r.z / r.w⟩

/-- Modelled from the spec: Babylon `Matrix.LookAtLHToRef` is not under
`src/`; the spec calls for "a look-at matrix from `position` toward
`position + direction`, with world-up `(0,1,0)` as the reference up
vector" in the left-handed convention: forward axis is the normalized
eye-to-target vector, right axis is `up x forward` normalized, up axis is
`forward x right` normalized, and the translation row holds the negated
projections of the eye onto the three axes.  The three axes are split out
as the definitions `lookZ`, `lookX`, `lookY` below, used by `LookAtLH`. -/
def lookZ (M : JsMath) (eye target : Vec3) : Vec3 :=
  Vec3.Normalize M (target.sub eye)

/-- The right axis of the look-at frame: `up x forward`, normalized. -/
def lookX (M : JsMath) (eye target up : Vec3) : Vec3 :=
  Vec3.Normalize M (up.cross (lookZ M eye target))

/-- The up axis of the look-at frame: `forward x right`, normalized. -/
def lookY (M : JsMath) (eye target up : Vec3) : Vec3 :=
  Vec3.Normalize M ((lookZ M eye target).cross (lookX M eye target up))

/-- Modelled from the spec: the left-handed look-at matrix assembled from
the three axes above, with the translation row holding the negated
projections of the eye onto the axes. -/
def Matrix4.LookAtLH (M : JsMath) (eye target up : Vec3) : Matrix4 :=
  let zaxis := lookZ M eye target
  let xaxis := lookX M eye target up
  let yaxis := lookY M eye target up
  Matrix4.fromValues
    xaxis.x yaxis.x zaxis.x 0
    xaxis.y yaxis.y zaxis.y 0
    xaxis.z yaxis.z zaxis.z 0
    (-(xaxis.dot eye)) (-(yaxis.dot eye)) (-(zaxis.dot eye)) 1

/-- Modelled from the spec: Babylon `Matrix.PerspectiveFovLHToRef` is not
under `src/`; the spec describes it as "a left-handed
perspective-field-of-view matrix" with the given vertical field of view,
aspect ratio, near and far planes (depth mapped to `[0,1]`). -/
def Matrix4.PerspectiveFovLH (M : JsMath) (fov aspect znear zfar : ℚ) : Matrix4 :=
  let t := 1 / M.tan (fov / 2)
  Matrix4.fromValues
    (t / aspect) 0 0 0
    0 t 0 0
    0 0 (zfar / (zfar - znear)) 1
    0 0 (-(znear * zfar) / (zfar - znear)) 0

/-- The state of a `SpotLight` instance: the five texture-projection inputs
(`position`, `direction`, `_light_near`, `_light_far`, `_angle`), the
shadow-angle scale (`Option` because the private `_shadowAngleScale` field
starts out `undefined` in JavaScript), the `exponent`, and the cached
`_textureMatrix`. -/
structure SpotLightState where
  position : Vec3
  direction : Vec3
  angle : ℚ
  shadowAngleScale : Option ℚ
  exponent : ℚ
  light_near : ℚ
  light_far : ℚ
  textureMatrix : Matrix4
  deriving DecidableEq

/-- The matrix value `SpotLight.computeTextureMatrix` stores into
`this._textureMatrix`: the left-handed look-at view matrix from `position`
toward `position.add(direction)` with up `Vector3.Up()`, times the
perspective matrix with entries `S/A, S, P, 1, Q` where
`P = light_far / (light_far - light_near)`, `Q = -P * light_near`,
`S = 1 / Math.tan(_angle / 2)`, `A = 1`, times the scale/bias matrix with
diagonal `0.5` and translation row `(0.5, 0.5, 0.5)`. -/
def computeTextureMatrixValue (M : JsMath) (s : SpotLightState) : Matrix4 :=
  let viewLightMatrix := Matrix4.LookAtLH M s.position (s.position.add s.direction) Vec3.up
  let light_far := s.light_far
  let light_near := s.light_near
  let P := light_far / (light_far - light_near)
  let Q := -P * light_near
  let S := 1 / M.tan (s.angle / 2)
  let A := (1 : ℚ)
  let projectionLightMatrix := Matrix4.fromValues
    (S / A) 0 0 0
    0 S 0 0
    0 0 P 1
    0 0 Q 0
  let scaleMatrix := Matrix4.fromValues
    (1 / 2) 0 0 0
    0 (1 / 2) 0 0
    0 0 (1 / 2) 0
    (1 / 2) (1 / 2) (1 / 2) 1
  (viewLightMatrix.mul projectionLightMatrix).mul scaleMatrix

/-- `SpotLight.computeTextureMatrix`: recomputes and stores the cached
texture-projection matrix. -/
def SpotLight.computeTextureMatrix (M : JsMath) (s : SpotLightState) : SpotLightState :=
  { s with textureMatrix := computeTextureMatrixValue M s }

/-- The `light_far` setter: stores the value, then calls
`computeTextureMatrix`. -/
def SpotLight.set_light_far (M : JsMath) (value : ℚ) (s : SpotLightState) : SpotLightState :=
  SpotLight.computeTextureMatrix M { s with light_far := value }

/-- The `light_near` setter: stores the value, then calls
`computeTextureMatrix`. -/
def SpotLight.set_light_near (M : JsMath) (value : ℚ) (s : SpotLightState) : SpotLightState :=
  SpotLight.computeTextureMatrix M { s with light_near := value }

/-- The `angle` setter: stores the value and calls
`forceProjectionMatrixCompute()`.  That base-class call refreshes the
shadow-projection matrix held by the shadow generator; it does not touch
the private `_textureMatrix` field (only `computeTextureMatrix` and the
`textureMatrix` setter write it). -/
def SpotLight.set_angle (value : ℚ) (s : SpotLightState) : SpotLightState :=
  { s with angle := value }

/-- The `shadowAngleScale` setter: stores the value and calls
`forceProjectionMatrixCompute()` (which does not touch `_textureMatrix`). -/
def SpotLight.set_shadowAngleScale (value : ℚ) (s : SpotLightState) : SpotLightState :=
  { s with shadowAngleScale := some value }

/-- The `textureMatrix` setter: assigns the given matrix to
`_textureMatrix`, then immediately calls `computeTextureMatrix`. -/
def SpotLight.set_textureMatrix (M : JsMath) (value : Matrix4) (s : SpotLightState) : SpotLightState :=
  SpotLight.computeTextureMatrix M { s with textureMatrix := value }

/-- Modelled from the spec: the `position` setter lives in the light base
class (not under `src/`); the spec calls position "externally owned"
storage, so the setter is a plain field update. -/
def SpotLight.set_position (value : Vec3) (s : SpotLightState) : SpotLightState :=
  { s with position := value }

/-- Modelled from the spec: the `direction` setter lives in the light base
class (not under `src/`); plain field storage, with no texture-matrix
recompute (the source file's own comment warns that changing the direction
"will not re-compute the projection matrix"). -/
def SpotLight.set_direction (value : Vec3) (s : SpotLightState) : SpotLightState :=
  { s with direction := value }

/-- Modelled from the spec: the camera collaborator, which "supplies
`depthMinZ`, `depthMaxZ` for the shadow-projection matrix". -/
structure Camera where
  depthMinZ : ℚ
  depthMaxZ : ℚ
  deriving DecidableEq

/-- Modelled from the spec: `Light.getDepthMinZ` is a base-class hook (not
under `src/`); the spec says the near plane is "camera-derived". -/
def Light.getDepthMinZ (camera : Camera) : ℚ :=
  camera.depthMinZ

/-- Modelled from the spec: `Light.getDepthMaxZ` is a base-class hook (not
under `src/`); the spec says the far plane is "camera-derived". -/
def Light.getDepthMaxZ (camera : Camera) : ℚ :=
  camera.depthMaxZ

/-- The JavaScript defaulting idiom `this._shadowAngleScale || 1`: an unset
(`undefined`) or zero scale yields `1`, any other value is kept. -/
def shadowScaleOrOne : Option ℚ → ℚ
  | none => 1
  | some k => if k = 0 then 1 else k

/-- `SpotLight._setDefaultShadowProjectionMatrix`: if the scene has no
active camera the call returns immediately (state and matrix untouched);
otherwise it first overwrites `this._shadowAngleScale` with
`this._shadowAngleScale || 1`, then writes into the passed matrix the
left-handed perspective-fov matrix with fov `_shadowAngleScale * _angle`,
aspect `1.0`, near `getDepthMinZ(activeCamera)` and far
`getDepthMaxZ(activeCamera)`.  The result is the pair (updated light
state, matrix now held by the caller). -/
def SpotLight.setDefaultShadowProjectionMatrix (M : JsMath) (s : SpotLightState)
    (activeCamera : Option Camera) (matrix : Matrix4) : SpotLightState × Matrix4 :=
  match activeCamera with
  | none => (s, matrix)
  | some camera =>
    let scale := shadowScaleOrOne s.shadowAngleScale
    let angle := scale * s.angle
    ({ s with shadowAngleScale := some scale },
     Matrix4.PerspectiveFovLH M angle 1 (Light.getDepthMinZ camera) (Light.getDepthMaxZ camera))

/-- Repeated shadow-projection builds: fold
`_setDefaultShadowProjectionMatrix` over a list of (active camera, passed
matrix) frames, keeping the light state. -/
def applyShadowBuilds (M : JsMath) : List (Option Camera × Matrix4) → SpotLightState → SpotLightState
  | [], s => s
  | (c, m) :: rest, s =>
    applyShadowBuilds M rest (SpotLight.setDefaultShadowProjectionMatrix M s c m).1

/-- One named write into the uniform sink, as issued by
`SpotLight.transferToEffect` (a four-float uniform update, a named matrix,
or a named texture binding). -/
inductive UniformWrite where
  | updateFloat4 (uniformName : String) (a b c d : ℚ) (lightIndex : String)
  | setMatrix (uniformName : String) (value : Matrix4)
  | setTexture (samplerName : String) (texture : String)
  deriving DecidableEq

/-- `SpotLight._buildUniformLayout`: the one-time uniform-block declaration,
as the ordered list of `(name, component count)` pairs passed to
`_uniformBuffer.addUniform` (the commented-out `textureMatrix` and
`tester` lines in the source are not declared). -/
def SpotLight.buildUniformLayout : List (String × Nat) :=
  [("vLightData", 4),
   ("vLightDiffuse", 4),
   ("vLightSpecular", 3),
   ("vLightDirection", 3),
   ("shadowsInfo", 3),
   ("depthValues", 2),
   ("textureProjectionFlag", 2)]

/-- The position/direction pair `transferToEffect` works from: the
transformed values when `computeTransformedInformation()` reports a parent
transform, otherwise the raw `position`/`direction`.  The transform cache
itself is a base-class collaborator (not under `src/`), so its outcome is
an `Option (transformedPosition, transformedDirection)` input. -/
def effectiveInfo (s : SpotLightState) (transformedInfo : Option (Vec3 × Vec3)) : Vec3 × Vec3 :=
  match transformedInfo with
  | some pd => pd
  | none => (s.position, s.direction)

/-- `SpotLight.transferToEffect`: the ordered list of writes issued into the
uniform sink for the given light index: `vLightData` (position and
exponent), `vLightDirection` (normalized direction and
`Math.cos(this.angle * 0.5)`), the texture-projection matrix under
`"textureMatrix" + lightIndex`, and, only when a projected light texture
is attached, its sampler binding. -/
def SpotLight.transferToEffect (M : JsMath) (s : SpotLightState)
    (transformedInfo : Option (Vec3 × Vec3)) (projectedLightTexture : Option String)
    (lightIndex : String) : List UniformWrite :=
  let pos := (effectiveInfo s transformedInfo).1
  let normalizeDirection := Vec3.Normalize M (effectiveInfo s transformedInfo).2
  [UniformWrite.updateFloat4 "vLightData" pos.x pos.y pos.z s.exponent lightIndex,
   UniformWrite.updateFloat4 "vLightDirection" normalizeDirection.x normalizeDirection.y
     normalizeDirection.z (M.cos (s.angle * (1 / 2))) lightIndex,
   UniformWrite.setMatrix (String.append "textureMatrix" lightIndex) s.textureMatrix]
  ++ (match projectedLightTexture with
      | some tex => [UniformWrite.setTexture (String.append "projectionLightSampler" lightIndex) tex]
      | none => [])

/-- The view matrix prescribed by the spec for the texture-projection
build: a left-handed look-at from `position` toward `position + direction`
with up `(0,1,0)`. -/
def specViewMatrix (M : JsMath) (position direction : Vec3) : Matrix4 :=
  Matrix4.LookAtLH M position (position.add direction) Vec3.up

/-- The perspective matrix as worded by the spec: with
`P = far / (far - near)`, `Q = -P * near`, `S = 1 / tan(coneAngle / 2)`
and aspect `A = 1`, the matrix has diagonal `(S/A, S, P)`, homogeneous
term `1` in the z-row's last column, and translation term `Q` for the
depth output (a standard left-handed perspective mapping depth `[near,
far]` to `[0, 1]`). -/
def specPerspectiveMatrix (M : JsMath) (near far coneAngle : ℚ) : Matrix4 :=
  let P := far / (far - near)
  let Q := -P * near
  let S := 1 / M.tan (coneAngle / 2)
  let A := (1 : ℚ)
  Matrix4.fromValues
    (S / A) 0 0 0
    0 S 0 0
    0 0 P 1
    0 0 Q 0

/-- The bias/scale matrix as worded by the spec: diagonal
`(0.5, 0.5, 0.5)` with translation `(0.5, 0.5, 0.5)`, mapping clip space
into `[0,1]` texture space. -/
def specBiasScaleMatrix : Matrix4 :=
  Matrix4.fromValues
    (1 / 2) 0 0 0
    0 (1 / 2) 0 0
    0 0 (1 / 2) 0
    (1 / 2) (1 / 2) (1 / 2) 1

/-- The texture-projection matrix as composed by the spec's words:
`view * perspective * biasScale`, row-vector left-to-right order. -/
def specTextureProjection (M : JsMath) (position direction : Vec3) (near far coneAngle : ℚ) : Matrix4 :=
  ((specViewMatrix M position direction).mul (specPerspectiveMatrix M near far coneAngle)).mul
    specBiasScaleMatrix

/-- A concrete record of numeric routines for closed computations: square
root constantly `1` (exact at the argument `1`, the only squared length
occurring in the concrete states below), tangent and cosine the identity. -/
def mathId : JsMath := ⟨fun _ => 1, fun q => q, fun q => q⟩

/-- A concrete record of numeric routines whose three functions are
constantly `1`.  At the concrete states below this agrees with the real
routines: the only square roots taken are of `1`, and a cone angle of
`π/2` has `tan(angle / 2) = 1`. -/
def mathOne : JsMath := ⟨fun _ => 1, fun _ => 1, fun _ => 1⟩

/-- A spot light pointing along the z axis, before any setter has run:
angle `2`, far clip `2`, near clip and texture matrix still at their
zero placeholders. -/
def baseLight : SpotLightState :=
  ⟨⟨0, 0, 0⟩, ⟨0, 0, 1⟩, 2, none, 0, 0, 2, Matrix4.zero⟩

/-- `baseLight` after `light_near = 1`: a valid five-tuple whose cached
texture matrix has just been recomputed by the `light_near` setter. -/
def freshLight : SpotLightState :=
  SpotLight.set_light_near mathId 1 baseLight

/-- C2 (confirmed): the texture-projection matrix is computed as
`view * perspective * biasScale` with the view a left-handed look-at from
`position` toward `position + direction` with up `(0,1,0)`, the
perspective matrix built from `P = far/(far-near)`, `Q = -P*near`,
`S = 1/tan(coneAngle/2)`, `A = 1` with diagonal `(S/A, S, P)`,
homogeneous term `1` in the z-row's last column and depth translation
term `Q`, and the bias/scale matrix with diagonal and translation
`(0.5, 0.5, 0.5)`. -/
theorem spotLight_texture_projection_composition (M : JsMath) (s : SpotLightState) :
    computeTextureMatrixValue M s =
      specTextureProjection M s.position s.direction s.light_near s.light_far s.angle := rfl

/-- C5 (confirmed): with no active camera, `_setDefaultShadowProjectionMatrix`
is a no-op: the light state and the previously stored shadow-projection
matrix are returned exactly unchanged. -/
theorem spotLight_shadow_update_no_camera_noop (M : JsMath) (s : SpotLightState) (matrix : Matrix4) :
    SpotLight.setDefaultShadowProjectionMatrix M s none matrix = (s, matrix) := rfl

/-- C6 (confirmed): for every assigned matrix `value`, the `textureMatrix`
setter immediately recomputes from the current five scalar inputs, so the
readable texture matrix afterwards is the builder's output on the current
state and is independent of `value`. -/
theorem spotLight_textureMatrix_setter_discards (M : JsMath) (value : Matrix4) (s : SpotLightState) :
    (SpotLight.set_textureMatrix M value s).textureMatrix = computeTextureMatrixValue M s := rfl

/-- C1 (amended): the `light_near` and `light_far` setters eagerly
recompute, so the cached texture matrix is the builder's output on the
new state as soon as they return; the `angle`, `position` and `direction`
setters store their value without touching the cached texture matrix,
which therefore goes stale. -/
theorem spotLight_setter_freshness (M : JsMath) (v : ℚ) (w : Vec3) (s : SpotLightState) :
    (SpotLight.set_light_near M v s).textureMatrix
        = computeTextureMatrixValue M (SpotLight.set_light_near M v s)
    ∧ (SpotLight.set_light_far M v s).textureMatrix
        = computeTextureMatrixValue M (SpotLight.set_light_far M v s)
    ∧ (SpotLight.set_angle v s).textureMatrix = s.textureMatrix
    ∧ (SpotLight.set_position w s).textureMatrix = s.textureMatrix
    ∧ (SpotLight.set_direction w s).textureMatrix = s.textureMatrix :=
  ⟨rfl, rfl, rfl, rfl, rfl⟩

/-- C1 (counterexample): starting from a valid five-tuple whose texture
matrix is fresh, running the `angle` setter leaves a stale texture
matrix: reading it does not give the builder's output on the current five
values. -/
theorem spotLight_angle_setter_stale_cex :
    (SpotLight.set_angle 4 freshLight).textureMatrix
      ≠ computeTextureMatrixValue mathId (SpotLight.set_angle 4 freshLight) := by
  norm_num [freshLight, baseLight, mathId, SpotLight.set_angle, SpotLight.set_light_near,
    SpotLight.computeTextureMatrix, computeTextureMatrixValue, Matrix4.LookAtLH, lookZ, lookX, lookY, Vec3.Normalize,
    Vec3.lengthSq, Vec3.dot, Vec3.cross, Vec3.add, Vec3.sub, Vec3.up, Matrix4.fromValues,
    Matrix4.mul, Matrix4.zero]

/-- C9 (counterexample): the uniform block does not declare the component
counts the claim lists — the light-direction slot is declared with 3
components, not 4. -/
theorem spotLight_uniform_layout_direction_cex :
    ¬ SpotLight.buildUniformLayout.map Prod.snd = [4, 4, 3, 4, 3, 2, 2] := by
  simp [SpotLight.buildUniformLayout]

/-- C9 (amended): the one-time uniform block layout declares, in order:
light data 4, diffuse color 4, specular color 3, light direction 3,
shadow info 3, depth range 2, texture-projection flag 2 — the
light-direction slot is declared with 3 components even though the
packager writes a 4-component vector into it. -/
theorem spotLight_uniform_layout_counts :
    SpotLight.buildUniformLayout =
      [("vLightData", 4), ("vLightDiffuse", 4), ("vLightSpecular", 3), ("vLightDirection", 3),
       ("shadowsInfo", 3), ("depthValues", 2), ("textureProjectionFlag", 2)] := rfl

/-- C3 (confirmed): with an active camera, the shadow-projection build
writes the left-handed perspective-fov matrix with vertical field of view
`coneAngle * (shadowAngleScale` when nonzero/set, otherwise `1)`, aspect
ratio `1.0`, near `getDepthMinZ(camera)` and far `getDepthMaxZ(camera)`,
and the result does not depend on the light's own `light_near` and
`light_far`. -/
theorem spotLight_shadow_projection_from_camera (M : JsMath) (s : SpotLightState)
    (camera : Camera) (matrix : Matrix4) :
    (SpotLight.setDefaultShadowProjectionMatrix M s (some camera) matrix).2
        = Matrix4.PerspectiveFovLH M (s.angle * shadowScaleOrOne s.shadowAngleScale) 1
            (Light.getDepthMinZ camera) (Light.getDepthMaxZ camera)
    ∧ ∀ near far : ℚ,
        (SpotLight.setDefaultShadowProjectionMatrix M
            { s with light_near := near, light_far := far } (some camera) matrix).2
          = (SpotLight.setDefaultShadowProjectionMatrix M s (some camera) matrix).2 := by
  constructor
  · show Matrix4.PerspectiveFovLH M (shadowScaleOrOne s.shadowAngleScale * s.angle) 1
        (Light.getDepthMinZ camera) (Light.getDepthMaxZ camera)
      = Matrix4.PerspectiveFovLH M (s.angle * shadowScaleOrOne s.shadowAngleScale) 1
        (Light.getDepthMinZ camera) (Light.getDepthMaxZ camera)
    rw [mul_comm]
  · intro near far
    rfl

/-- C4 (confirmed): the fourth component of the `vLightDirection` uniform
is `Math.cos(coneAngle * 0.5)` (the half-angle cosine), while the shadow
projection is built with the full `shadowAngleScale * coneAngle` as its
field of view; at the default scale the two angle bases differ for every
nonzero cone angle. -/
theorem spotLight_half_angle_vs_full_fov (M : JsMath) (s : SpotLightState)
    (transformedInfo : Option (Vec3 × Vec3)) (tex : Option String) (lightIndex : String)
    (camera : Camera) (matrix : Matrix4) :
    (SpotLight.transferToEffect M s transformedInfo tex lightIndex).get? 1
        = some (UniformWrite.updateFloat4 "vLightDirection"
            (Vec3.Normalize M (effectiveInfo s transformedInfo).2).x
            (Vec3.Normalize M (effectiveInfo s transformedInfo).2).y
            (Vec3.Normalize M (effectiveInfo s transformedInfo).2).z
            (M.cos (s.angle * (1 / 2))) lightIndex)
    ∧ (SpotLight.setDefaultShadowProjectionMatrix M s (some camera) matrix).2
        = Matrix4.PerspectiveFovLH M (shadowScaleOrOne s.shadowAngleScale * s.angle) 1
            (Light.getDepthMinZ camera) (Light.getDepthMaxZ camera)
    ∧ (s.angle ≠ 0 → s.angle * (1 / 2) ≠ shadowScaleOrOne none * s.angle) := by
  refine ⟨rfl, rfl, fun h heq => h ?_⟩
  have h1 : shadowScaleOrOne none = 1 := rfl
  rw [h1, one_mul] at heq
  linarith

/-- Witness for C4 at a concrete light (angle `2`, direction `(0,0,1)`). -/
theorem spotLight_half_angle_vs_full_fov_witness :
    (SpotLight.transferToEffect mathId baseLight none none "0").get? 1
        = some (UniformWrite.updateFloat4 "vLightDirection" 0 0 1 1 "0")
    ∧ baseLight.angle * (1 / 2) ≠ shadowScaleOrOne none * baseLight.angle := by
  have h := spotLight_half_angle_vs_full_fov mathId baseLight none none "0" ⟨1, 100⟩ Matrix4.zero
  refine ⟨?_, h.2.2 (by norm_num [baseLight])⟩
  rw [h.1]
  norm_num [baseLight, effectiveInfo, Vec3.Normalize, Vec3.lengthSq, Vec3.dot, mathId]

/-- The JavaScript defaulting `x || 1` never yields zero. -/
theorem shadowScaleOrOne_ne_zero (o : Option ℚ) : shadowScaleOrOne o ≠ 0 := by
  cases o with
  | none => norm_num [shadowScaleOrOne]
  | some k =>
    simp only [shadowScaleOrOne]
    split
    · norm_num
    · assumption

/-- Any sequence of further shadow builds keeps a nonzero stored
shadow-angle scale exactly as it is. -/
theorem applyShadowBuilds_shadowAngleScale (M : JsMath) (ops : List (Option Camera × Matrix4)) :
    ∀ (s : SpotLightState) (v : ℚ), v ≠ 0 → s.shadowAngleScale = some v →
      (applyShadowBuilds M ops s).shadowAngleScale = some v := by
  induction ops with
  | nil =>
    intro s v _ hv
    simpa [applyShadowBuilds] using hv
  | cons op rest ih =>
    intro s v hv0 hv
    obtain ⟨c, m⟩ := op
    cases c with
    | none =>
      exact ih _ v hv0 (by simpa [applyShadowBuilds, SpotLight.setDefaultShadowProjectionMatrix] using hv)
    | some cam =>
      apply ih _ v hv0
      simp [applyShadowBuilds, SpotLight.setDefaultShadowProjectionMatrix, shadowScaleOrOne, hv, hv0]

/-- C10 (confirmed): with an active camera, the shadow-projection build
permanently overwrites the stored `_shadowAngleScale` with
`_shadowAngleScale || 1` (so `1` when it was unset or `0`), the stored
value is never zero, and it survives any sequence of further builds
unchanged. -/
theorem spotLight_shadowAngleScale_persisted (M : JsMath) (s : SpotLightState)
    (camera : Camera) (matrix : Matrix4) (ops : List (Option Camera × Matrix4)) :
    ((SpotLight.setDefaultShadowProjectionMatrix M s (some camera) matrix).1).shadowAngleScale
        = some (shadowScaleOrOne s.shadowAngleScale)
    ∧ shadowScaleOrOne none = 1
    ∧ shadowScaleOrOne (some 0) = 1
    ∧ shadowScaleOrOne s.shadowAngleScale ≠ 0
    ∧ (applyShadowBuilds M ops
          (SpotLight.setDefaultShadowProjectionMatrix M s (some camera) matrix).1).shadowAngleScale
        = some (shadowScaleOrOne s.shadowAngleScale) := by
  refine ⟨rfl, rfl, by norm_num [shadowScaleOrOne], shadowScaleOrOne_ne_zero _, ?_⟩
  exact applyShadowBuilds_shadowAngleScale M ops _ _ (shadowScaleOrOne_ne_zero _) rfl

/-- Witness for C10: a light with unset scale gets `1` stored after the
first build with a camera and keeps it through further builds (with and
without a camera). -/
theorem spotLight_shadowAngleScale_persisted_witness :
    ((SpotLight.setDefaultShadowProjectionMatrix mathId baseLight (some ⟨1, 100⟩)
          Matrix4.zero).1).shadowAngleScale = some 1
    ∧ (applyShadowBuilds mathId [(none, Matrix4.zero), (some ⟨2, 50⟩, Matrix4.zero)]
          (SpotLight.setDefaultShadowProjectionMatrix mathId baseLight (some ⟨1, 100⟩)
            Matrix4.zero).1).shadowAngleScale = some 1 := by
  have h := spotLight_shadowAngleScale_persisted mathId baseLight ⟨1, 100⟩ Matrix4.zero
    [(none, Matrix4.zero), (some ⟨2, 50⟩, Matrix4.zero)]
  constructor
  · rw [h.1]
    norm_num [baseLight, shadowScaleOrOne]
  · rw [h.2.2.2.2]
    norm_num [baseLight, shadowScaleOrOne]

/-- Row-vector application distributes over the matrix product. -/
theorem Matrix4.applyH_mul (A B : Matrix4) (v : Vec4) :
    (A.mul B).applyH v = B.applyH (A.applyH v) := by
  simp only [Matrix4.mul, Matrix4.applyH, Vec4.mk.injEq]
  refine ⟨by ring, by ring, by ring, by ring⟩

/-- Adding a vector and subtracting the base point returns the vector. -/
theorem Vec3.add_sub_self (pos dir : Vec3) : (pos.add dir).sub pos = dir := by
  obtain ⟨px, py, pz⟩ := pos
  obtain ⟨dx, dy, dz⟩ := dir
  simp only [Vec3.add, Vec3.sub, Vec3.mk.injEq]
  refine ⟨by ring, by ring, by ring⟩

/-- Scaling pulls out of the dot product. -/
theorem Vec3.dot_scale (c : ℚ) (a b : Vec3) :
    Vec3.dot (Vec3.scale c a) b = c * Vec3.dot a b := by
  simp only [Vec3.scale, Vec3.dot]
  ring

/-- Applying the look-at matrix to a homogeneous point projects the
eye-to-point vector onto the three camera axes. -/
theorem applyH_lookAt (M : JsMath) (eye target up p : Vec3) :
    (Matrix4.LookAtLH M eye target up).applyH ⟨p.x, p.y, p.z, 1⟩
      = ⟨Vec3.dot (p.sub eye) (lookX M eye target up),
         Vec3.dot (p.sub eye) (lookY M eye target up),
         Vec3.dot (p.sub eye) (lookZ M eye target), 1⟩ := by
  simp only [Matrix4.LookAtLH, Matrix4.fromValues, Matrix4.applyH, Vec3.dot, Vec3.sub,
    Vec4.mk.injEq]
  refine ⟨by ring, by ring, by ring, by ring⟩

/-- The light direction is orthogonal to the right axis of its own look-at
frame (a vanishing scalar triple product, for any values of the square
roots). -/
theorem dir_dot_lookX (M : JsMath) (pos dir : Vec3) :
    Vec3.dot dir (lookX M pos (pos.add dir) Vec3.up) = 0 := by
  rw [lookX, lookZ, Vec3.add_sub_self]
  simp only [Vec3.Normalize, Vec3.cross, Vec3.dot, Vec3.up, Vec3.lengthSq]
  ring

/-- The light direction is orthogonal to the up axis of its own look-at
frame. -/
theorem dir_dot_lookY (M : JsMath) (pos dir : Vec3) :
    Vec3.dot dir (lookY M pos (pos.add dir) Vec3.up) = 0 := by
  rw [lookY, lookX, lookZ, Vec3.add_sub_self]
  simp only [Vec3.Normalize, Vec3.cross, Vec3.dot, Vec3.up, Vec3.lengthSq]
  ring

/-- Projection of the light direction onto the forward axis of its own
look-at frame. -/
theorem dir_dot_lookZ (M : JsMath) (pos dir : Vec3) :
    Vec3.dot dir (lookZ M pos (pos.add dir))
      = Vec3.lengthSq dir / M.sqrt (Vec3.lengthSq dir) := by
  rw [lookZ, Vec3.add_sub_self]
  simp only [Vec3.Normalize, Vec3.dot, Vec3.lengthSq]
  ring

/-- The bias/scale matrix of the texture-projection build, as a named
constant for the on-axis lemma. -/
def biasHalf : Matrix4 :=
  Matrix4.fromValues (1/2) 0 0 0 0 (1/2) 0 0 0 0 (1/2) 0 (1/2) (1/2) (1/2) 1

/-- The perspective matrix shape of the texture-projection build, as a
named constant for the on-axis lemma. -/
def perspSAPQ (S A P Q : ℚ) : Matrix4 :=
  Matrix4.fromValues (S/A) 0 0 0 0 S 0 0 0 0 P 1 0 0 Q 0

/-- A view-space point on the optical axis (zero x and y) lands on the
texture center `(1/2, 1/2)` after the perspective and bias stages and the
homogeneous divide, for any nonzero view depth. -/
theorem persp_bias_on_axis (S A P Q zv : ℚ) (h : zv ≠ 0) :
    ((biasHalf.applyH ((perspSAPQ S A P Q).applyH ⟨0, 0, zv, 1⟩)).x
        / (biasHalf.applyH ((perspSAPQ S A P Q).applyH ⟨0, 0, zv, 1⟩)).w = 1/2)
    ∧ ((biasHalf.applyH ((perspSAPQ S A P Q).applyH ⟨0, 0, zv, 1⟩)).y
        / (biasHalf.applyH ((perspSAPQ S A P Q).applyH ⟨0, 0, zv, 1⟩)).w = 1/2) := by
  have hx : (biasHalf.applyH ((perspSAPQ S A P Q).applyH ⟨0, 0, zv, 1⟩)).x = zv * (1/2) := by
    simp only [biasHalf, perspSAPQ, Matrix4.fromValues, Matrix4.applyH]
    ring
  have hy : (biasHalf.applyH ((perspSAPQ S A P Q).applyH ⟨0, 0, zv, 1⟩)).y = zv * (1/2) := by
    simp only [biasHalf, perspSAPQ, Matrix4.fromValues, Matrix4.applyH]
    ring
  have hw : (biasHalf.applyH ((perspSAPQ S A P Q).applyH ⟨0, 0, zv, 1⟩)).w = zv := by
    simp only [biasHalf, perspSAPQ, Matrix4.fromValues, Matrix4.applyH]
    ring
  constructor
  · rw [hx, hw, mul_comm, mul_div_assoc, div_self h, mul_one]
  · rw [hy, hw, mul_comm, mul_div_assoc, div_self h, mul_one]

/-- The spec's example scenario: position `(0,0,0)`, direction `(0,0,1)`,
near `1e-7`, far `1000`, cone angle `π/2`.  The angle enters the build
only through `tan(angle/2)`, which is `1` at `π/2`, and the only square
roots taken are of `1`; both are matched exactly by the `mathOne`
routines, so the stored angle value is a rational stand-in. -/
def exampleScenarioLight : SpotLightState :=
  ⟨⟨0, 0, 0⟩, ⟨0, 0, 1⟩, 157/100, none, 2, 1/10000000, 1000, Matrix4.zero⟩

/-- C7 (counterexample): in the spec's example scenario the texture-space
depth of the point `(0,0,500)` is about `1`, not about `0.5`: it is not
within `1e-3` of `0.5`. -/
theorem spotLight_example_point_z_cex :
    ¬ (|(Matrix4.applyPoint (computeTextureMatrixValue mathOne exampleScenarioLight)
          ⟨0, 0, 500⟩).z - 1/2| ≤ 1/1000) := by
  norm_num [exampleScenarioLight, mathOne, computeTextureMatrixValue, Matrix4.LookAtLH,
    lookZ, lookX, lookY, Vec3.Normalize, Vec3.lengthSq, Vec3.dot, Vec3.cross, Vec3.add,
    Vec3.sub, Vec3.up, Matrix4.fromValues, Matrix4.mul, Matrix4.applyPoint, Matrix4.applyH, abs]

/-- C7 (amended): any point on the light's optical axis at a depth
parameter `d` with `near ≤ d ≤ far` maps to texture-space
`x = y = 1/2` exactly (for any direction of nonzero squared length whose
square root is nonzero); in the spec's example scenario the point
`(0,0,500)` maps to `(1/2, 1/2, z)` with `z` within `1e-3` of `1` (not of
`0.5`). -/
theorem spotLight_axis_maps_to_texture_center (M : JsMath) (s : SpotLightState) (d : ℚ)
    (hnear : 0 < s.light_near) (hd1 : s.light_near ≤ d) (_hd2 : d ≤ s.light_far)
    (hdir : Vec3.lengthSq s.direction ≠ 0)
    (hs : M.sqrt (Vec3.lengthSq s.direction) ≠ 0) :
    (Matrix4.applyPoint (computeTextureMatrixValue M s)
        (s.position.add (Vec3.scale d s.direction))).x = 1 / 2
    ∧ (Matrix4.applyPoint (computeTextureMatrixValue M s)
        (s.position.add (Vec3.scale d s.direction))).y = 1 / 2
    ∧ (Matrix4.applyPoint (computeTextureMatrixValue mathOne exampleScenarioLight)
          ⟨0, 0, 500⟩).x = 1 / 2
    ∧ (Matrix4.applyPoint (computeTextureMatrixValue mathOne exampleScenarioLight)
          ⟨0, 0, 500⟩).y = 1 / 2
    ∧ |(Matrix4.applyPoint (computeTextureMatrixValue mathOne exampleScenarioLight)
          ⟨0, 0, 500⟩).z - 1| ≤ 1 / 1000 := by
  have hd : d ≠ 0 := (lt_of_lt_of_le hnear hd1).ne'
  have hzv : d * (Vec3.lengthSq s.direction / M.sqrt (Vec3.lengthSq s.direction)) ≠ 0 :=
    mul_ne_zero hd (div_ne_zero hdir hs)
  have hgen :
      (Matrix4.applyPoint (computeTextureMatrixValue M s)
          (s.position.add (Vec3.scale d s.direction))).x = 1 / 2
      ∧ (Matrix4.applyPoint (computeTextureMatrixValue M s)
          (s.position.add (Vec3.scale d s.direction))).y = 1 / 2 := by
    simp only [Matrix4.applyPoint, computeTextureMatrixValue]
    rw [Matrix4.applyH_mul, Matrix4.applyH_mul, applyH_lookAt, Vec3.add_sub_self,
      Vec3.dot_scale, Vec3.dot_scale, Vec3.dot_scale,
      dir_dot_lookX, dir_dot_lookY, dir_dot_lookZ]
    simp only [mul_zero]
    exact persp_bias_on_axis _ _ _ _ _ hzv
  have hconc :
      (Matrix4.applyPoint (computeTextureMatrixValue mathOne exampleScenarioLight)
          ⟨0, 0, 500⟩).x = 1 / 2
      ∧ (Matrix4.applyPoint (computeTextureMatrixValue mathOne exampleScenarioLight)
          ⟨0, 0, 500⟩).y = 1 / 2
      ∧ |(Matrix4.applyPoint (computeTextureMatrixValue mathOne exampleScenarioLight)
          ⟨0, 0, 500⟩).z - 1| ≤ 1 / 1000 := by
    norm_num [exampleScenarioLight, mathOne, computeTextureMatrixValue, Matrix4.LookAtLH,
      lookZ, lookX, lookY, Vec3.Normalize, Vec3.lengthSq, Vec3.dot, Vec3.cross, Vec3.add,
      Vec3.sub, Vec3.up, Matrix4.fromValues, Matrix4.mul, Matrix4.applyPoint, Matrix4.applyH, abs]
  exact ⟨hgen.1, hgen.2, hconc.1, hconc.2.1, hconc.2.2⟩

/-- Witness for C7 (amended) at the spec's example scenario with depth
parameter `500`. -/
theorem spotLight_axis_maps_to_texture_center_witness :
    (Matrix4.applyPoint (computeTextureMatrixValue mathOne exampleScenarioLight)
        (exampleScenarioLight.position.add
          (Vec3.scale 500 exampleScenarioLight.direction))).x = 1 / 2
    ∧ (Matrix4.applyPoint (computeTextureMatrixValue mathOne exampleScenarioLight)
        (exampleScenarioLight.position.add
          (Vec3.scale 500 exampleScenarioLight.direction))).y = 1 / 2 := by
  have h := spotLight_axis_maps_to_texture_center mathOne exampleScenarioLight 500
    (by norm_num [exampleScenarioLight]) (by norm_num [exampleScenarioLight])
    (by norm_num [exampleScenarioLight])
    (by norm_num [exampleScenarioLight, Vec3.lengthSq, Vec3.dot])
    (by norm_num [mathOne])
  exact ⟨h.1, h.2.1⟩

/-- A degenerate light: `light_near = light_far = 1` (the perspective
denominator `far - near` is zero). -/
def degenerateLight : SpotLightState :=
  ⟨⟨0, 0, 0⟩, ⟨0, 0, 1⟩, 2, none, 0, 1, 1, Matrix4.zero⟩

/-- C8 (counterexample): on the degenerate input `near = far` the build
does not fail with any error signal — it is a total function that
produces a definite matrix (the code has no validation and no
`InvalidLightGeometry` kind anywhere; in JavaScript the division by zero
silently yields `Infinity`, in this rational model it yields `0`, and in
neither case is an error raised). -/
theorem spotLight_degenerate_build_silent_cex :
    computeTextureMatrixValue mathId degenerateLight
      = Matrix4.fromValues (1/2) 0 0 0 0 (1/2) 0 0 (1/2) (1/2) (1/2) 1 0 0 0 0 := by
  norm_num [degenerateLight, mathId, computeTextureMatrixValue, Matrix4.LookAtLH, lookZ, lookX,
    lookY, Vec3.Normalize, Vec3.lengthSq, Vec3.dot, Vec3.cross, Vec3.add, Vec3.sub, Vec3.up,
    Matrix4.fromValues, Matrix4.mul]

/-- C8 (amended): degenerate inputs are not validated: with
`near = far` the build still runs the same arithmetic and returns the
composition whose perspective block contains the division-by-zero
subterms `far / 0` and `-(far / 0) * near` — no error is signaled. -/
theorem spotLight_degenerate_no_error (M : JsMath) (s : SpotLightState)
    (h : s.light_near = s.light_far) :
    computeTextureMatrixValue M s
      = ((Matrix4.LookAtLH M s.position (s.position.add s.direction) Vec3.up).mul
          (Matrix4.fromValues (1 / M.tan (s.angle / 2) / 1) 0 0 0
            0 (1 / M.tan (s.angle / 2)) 0 0
            0 0 (s.light_far / 0) 1
            0 0 (-(s.light_far / 0) * s.light_near) 0)).mul specBiasScaleMatrix := by
  simp only [computeTextureMatrixValue, specBiasScaleMatrix, h, sub_self]

/-- Witness for C8 (amended) at the concrete degenerate light. -/
theorem spotLight_degenerate_no_error_witness :
    degenerateLight.light_near = degenerateLight.light_far
    ∧ computeTextureMatrixValue mathId degenerateLight
      = ((Matrix4.LookAtLH mathId degenerateLight.position
            (degenerateLight.position.add degenerateLight.direction) Vec3.up).mul
          (Matrix4.fromValues (1 / mathId.tan (degenerateLight.angle / 2) / 1) 0 0 0
            0 (1 / mathId.tan (degenerateLight.angle / 2)) 0 0
            0 0 (degenerateLight.light_far / 0) 1
            0 0 (-(degenerateLight.light_far / 0) * degenerateLight.light_near) 0)).mul
          specBiasScaleMatrix :=
  ⟨rfl, spotLight_degenerate_no_error mathId degenerateLight rfl⟩

/-- Witness for C3 at a concrete light and camera. -/
theorem spotLight_shadow_projection_from_camera_witness :
    (SpotLight.setDefaultShadowProjectionMatrix mathId baseLight (some ⟨1, 100⟩) Matrix4.zero).2
      = Matrix4.PerspectiveFovLH mathId
          (baseLight.angle * shadowScaleOrOne baseLight.shadowAngleScale) 1
          (Light.getDepthMinZ ⟨1, 100⟩) (Light.getDepthMaxZ ⟨1, 100⟩) :=
  (spotLight_shadow_projection_from_camera mathId baseLight ⟨1, 100⟩ Matrix4.zero).1
